import Mathlib

/-!
Verification development for the CS-330 scene-management subsystem
(`Source/SceneManager.cpp`).  The data model and operations below are a
shallow embedding of the C++ source: the texture registry is the
`m_textureIDs` array together with the live count `m_loadedTextures`
(modelled as a list whose length is the count, an entry's slot being its
index), the material registry is the `m_objectMaterials` vector, and the
shader sink (`m_pShaderManager`) is modelled as the list of uniform-push
events a call emits, with a boolean standing for the NULL-pointer check
on `m_pShaderManager`.  Float arithmetic on colors, angles and time is
idealised as exact rational arithmetic, and the GLM matrix pipeline as
exact real arithmetic.
-/

namespace SceneManager

/-- A texture registry entry: `m_textureIDs[i]` holds the OpenGL texture
name `ID` and the symbolic `tag`; the slot of an entry is its index `i`. -/
structure TextureEntry where
  ID : Int
  tag : String
deriving DecidableEq

/-- Result of `stbi_load`: either failure (`NULL` return) or a decoded
image with its width, height and channel count. -/
inductive DecodeResult where
  | fail
  | ok (width height channels : ℕ)

/-- Failure modes of texture registration, named as in the spec's error
taxonomy. -/
inductive RegisterError where
  | imageDecodeError
  | unsupportedChannelLayout
  | slotCapacityExceeded
deriving DecidableEq

/-- Modelled from the spec: the texture-slot capacity.  The fixed bound of
the `m_textureIDs` array is declared in `SceneManager.h`, which is not in
the sources; the spec fixes MAX_SLOTS = 16 and requires a registration
beyond it to fail with `SlotCapacityExceeded`, leaving the registry
unchanged, rather than corrupting state. -/
def MAX_SLOTS : ℕ := 16

/-- Embeds `SceneManager::CreateGLTexture`.  The result is the new
registry together with an error when registration failed.  From the
source: a decode failure returns `false` ("Could not load image");
a channel count other than 3 or 4 returns `false` before any entry is
appended ("Not implemented to handle image with N channels"); otherwise
an entry is written at index `m_loadedTextures` and the count is
incremented.  The capacity test guarding that final append is Modelled
from the spec (see `MAX_SLOTS`): the source appends unconditionally into
the fixed array declared in the missing header. -/
def CreateGLTexture (reg : List TextureEntry) (decoded : DecodeResult)
    (newID : Int) (tag : String) : List TextureEntry × Option RegisterError :=
  match decoded with
  | .fail => (reg, some .imageDecodeError)
  | .ok _ _ channels =>
    if channels = 3 ∨ channels = 4 then
      if reg.length < MAX_SLOTS then
        (reg ++ [⟨newID, tag⟩], none)
      else
        (reg, some .slotCapacityExceeded)
    else
      (reg, some .unsupportedChannelLayout)

/-- Embeds `SceneManager::FindTextureID`: linear scan in registration
order, stopping at the first entry whose tag compares equal, with the
sentinel -1 when the scan exhausts the live entries. -/
def FindTextureID (reg : List TextureEntry) (tag : String) : Int :=
  match reg with
  | [] => -1
  | e :: rest => if e.tag = tag then e.ID else FindTextureID rest tag

/-- The scanning loop of `SceneManager::FindTextureSlot`, carrying the
running `index` exactly as the source's while-loop does. -/
def FindTextureSlotLoop (reg : List TextureEntry) (tag : String) (index : Int) : Int :=
  match reg with
  | [] => -1
  | e :: rest => if e.tag = tag then index else FindTextureSlotLoop rest tag (index + 1)

/-- Embeds `SceneManager::FindTextureSlot`: same scan as `FindTextureID`
but returning the index of the first match, -1 on a miss. -/
def FindTextureSlot (reg : List TextureEntry) (tag : String) : Int :=
  FindTextureSlotLoop reg tag 0

/-- Embeds `SceneManager::OBJECT_MATERIAL` (colors idealised as exact
rationals). -/
structure OBJECT_MATERIAL where
  diffuseColor : ℚ × ℚ × ℚ
  specularColor : ℚ × ℚ × ℚ
  shininess : ℚ
  tag : String
deriving DecidableEq

/-- The scanning while-loop of `SceneManager::FindMaterial`: at the first
entry whose tag matches, the three material fields are copied into the
out-parameter `material` and the loop stops; when the scan exhausts the
list the out-parameter is left as it was. -/
def FindMaterialLoop (mats : List OBJECT_MATERIAL) (tag : String)
    (material : OBJECT_MATERIAL) : OBJECT_MATERIAL :=
  match mats with
  | [] => material
  | m :: rest =>
    if m.tag = tag then
      { material with
          diffuseColor := m.diffuseColor
          specularColor := m.specularColor
          shininess := m.shininess }
    else
      FindMaterialLoop rest tag material

/-- Embeds `SceneManager::FindMaterial` (return value, updated
out-parameter).  From the source: an empty `m_objectMaterials` returns
`false` at once; otherwise the function runs the scan loop and then
returns `true` unconditionally — the loop's `bFound` flag is not
consulted by the final `return(true)`. -/
def FindMaterial (mats : List OBJECT_MATERIAL) (tag : String)
    (material : OBJECT_MATERIAL) : Bool × OBJECT_MATERIAL :=
  if mats.length = 0 then
    (false, material)
  else
    (true, FindMaterialLoop mats tag material)

/-- One uniform-push event on the shader sink (`m_pShaderManager`),
tagged with the setter used and the uniform name. -/
inductive UniformEvent where
  | setInt (name : String) (value : Int)
  | setVec2 (name : String) (value : ℚ × ℚ)
  | setVec3 (name : String) (value : ℚ × ℚ × ℚ)
  | setVec4 (name : String) (value : ℚ × ℚ × ℚ × ℚ)
  | setFloat (name : String) (value : ℚ)
  | setSampler2D (name : String) (value : Int)
deriving DecidableEq

/-- Embeds `SceneManager::SetShaderColor`: when the shader sink is
non-NULL it pushes `bUseTexture := false` (as the int 0, via
`setIntValue`) and the RGBA color; a NULL sink receives nothing. -/
def SetShaderColor (shaderPresent : Bool) (r g b a : ℚ) : List UniformEvent :=
  if shaderPresent then
    [.setInt "bUseTexture" 0, .setVec4 "objectColor" (r, g, b, a)]
  else
    []

/-- Embeds `SceneManager::SetShaderTexture`: when the shader sink is
non-NULL it pushes `bUseTexture := true` (as the int 1) and then the
result of `FindTextureSlot` — the slot on a hit, the sentinel -1 on a
miss — as the sampler uniform; a NULL sink receives nothing. -/
def SetShaderTexture (shaderPresent : Bool) (reg : List TextureEntry)
    (textureTag : String) : List UniformEvent :=
  if shaderPresent then
    [.setInt "bUseTexture" 1,
     .setSampler2D "objectTexture" (FindTextureSlot reg textureTag)]
  else
    []

/-- Embeds `SceneManager::SetTextureUVScale`: when the shader sink is
non-NULL it pushes the 2-component UVscale uniform. -/
def SetTextureUVScale (shaderPresent : Bool) (u v : ℚ) : List UniformEvent :=
  if shaderPresent then
    [.setVec2 "UVscale" (u, v)]
  else
    []

/-- Embeds `SceneManager::SetShaderMaterial`.  The local `material` the
source declares without an initialiser is modelled by the parameter
`uninit` (its indeterminate stack contents).  From the source: nothing
happens when the material list is empty; otherwise `FindMaterial` is run
and, when it returns `true`, the three material uniforms are pushed from
the (possibly never-written) out-parameter.  This function performs no
NULL check on the shader sink. -/
def SetShaderMaterial (mats : List OBJECT_MATERIAL) (materialTag : String)
    (uninit : OBJECT_MATERIAL) : List UniformEvent :=
  if 0 < mats.length then
    let r := FindMaterial mats materialTag uninit
    if r.1 then
      [.setVec3 "material.diffuseColor" r.2.diffuseColor,
       .setVec3 "material.specularColor" r.2.specularColor,
       .setFloat "material.shininess" r.2.shininess]
    else
      []
  else
    []

/-- One raw OpenGL texture-name call issued by the registry teardown. -/
inductive GLCall where
  | genTextures (newName : Int)
  | deleteTextures (name : Int)
deriving DecidableEq

/-- The loop of `SceneManager::DestroyGLTextures`, iterating over the
live entries in index order.  `names j` is the fresh texture name the
`j`-th `glGenTextures(1, &m_textureIDs[i].ID)` call produces; the call
overwrites the stored handle with that fresh name. -/
def DestroyGLTexturesLoop (names : ℕ → Int) (i : ℕ) :
    List TextureEntry → List TextureEntry × List GLCall
  | [] => ([], [])
  | e :: rest =>
    let r := DestroyGLTexturesLoop names (i + 1) rest
    ({ e with ID := names i } :: r.1, GLCall.genTextures (names i) :: r.2)

/-- Embeds `SceneManager::DestroyGLTextures`: for each live entry (and
only those) it calls `glGenTextures(1, &m_textureIDs[i].ID)`; no
`glDeleteTextures` call is ever issued and the count and tags are left
as they were. -/
def DestroyGLTextures (names : ℕ → Int) (reg : List TextureEntry) :
    List TextureEntry × List GLCall :=
  DestroyGLTexturesLoop names 0 reg

/-- One per-draw shader-state call of the Shader State Gateway, as issued
between draws in `RenderScene`: either a flat-color call or a texture
call. -/
inductive GatewayCall where
  | flatColor (r g b a : ℚ)
  | texture (tag : String)

/-- Whether a gateway call is a `SetShaderTexture` call. -/
def GatewayCall.isTexture : GatewayCall → Bool
  | .flatColor _ _ _ _ => false
  | .texture _ => true

/-- The uniform events one gateway call emits (shader sink present). -/
def GatewayCall.events (reg : List TextureEntry) : GatewayCall → List UniformEvent
  | .flatColor r g b a => SetShaderColor true r g b a
  | .texture tag => SetShaderTexture true reg tag

/-- The uniform events a sequence of gateway calls emits, in order. -/
def runCalls (reg : List TextureEntry) (calls : List GatewayCall) : List UniformEvent :=
  (calls.map (GatewayCall.events reg)).flatten

/-- The value held by the `bUseTexture` uniform after a list of pushes:
the last write wins; `none` when it was never written. -/
def lastUseTexture (events : List UniformEvent) : Option Int :=
  events.foldl
    (fun acc e =>
      match e with
      | .setInt n v => if n = "bUseTexture" then some v else acc
      | _ => acc)
    none

/-- Embeds the clock-hand angle derivation at the top of
`SceneManager::RenderScene` from the sampled local time
(`tm_hour`, `tm_min`, `tm_sec`), in degrees:
hour hand, minute hand, second hand. -/
def RenderSceneClockAngles (hour minute second : ℕ) : ℚ × ℚ × ℚ :=
  (-(((hour % 12 : ℕ) : ℚ) + (minute : ℚ) / 60) * 30,
   -(minute : ℚ) * 6,
   -(second : ℚ) * 6)

/-- 4x4 real matrix, the idealisation of `glm::mat4`. -/
abbrev Mat4 := Matrix (Fin 4) (Fin 4) ℝ

/-- 3-component real vector, the idealisation of `glm::vec3`. -/
abbrev V3 := ℝ × ℝ × ℝ

/-- Embeds `glm::radians`: degrees to radians. -/
noncomputable def radians (degrees : ℝ) : ℝ := degrees * (Real.pi / 180)

/-- Embeds `glm::scale(v)`: the 4x4 scaling matrix with the given
diagonal. -/
noncomputable def glmScale (v : V3) : Mat4 :=
  !![v.1, 0, 0, 0;
     0, v.2.1, 0, 0;
     0, 0, v.2.2, 0;
     0, 0, 0, 1]

/-- Embeds `glm::translate(v)`: the identity with the translation in the
fourth column (GLM stores it as column 3; in this row-indexed encoding
that is entry (i, 3)). -/
noncomputable def glmTranslate (v : V3) : Mat4 :=
  !![1, 0, 0, v.1;
     0, 1, 0, v.2.1;
     0, 0, 1, v.2.2;
     0, 0, 0, 1]

/-- Embeds `glm::rotate(angle, v)` (axis-angle, GLM's Rodrigues build):
the axis is normalised, `temp = (1 - cos) * axis`, and the nine entries
are filled column-major as in `glm::ext::matrix_transform`; here entry
`(row, col)` of the Lean matrix is GLM's `Rotate[col][row]`. -/
noncomputable def glmRotate (angle : ℝ) (vx vy vz : ℝ) : Mat4 :=
  let c := Real.cos angle
  let s := Real.sin angle
  let len := Real.sqrt (vx * vx + vy * vy + vz * vz)
  let ax := vx / len
  let ay := vy / len
  let az := vz / len
  let t := 1 - c
  !![c + t * ax * ax, t * ay * ax - s * az, t * az * ax + s * ay, 0;
     t * ax * ay + s * az, c + t * ay * ay, t * az * ay - s * ax, 0;
     t * ax * az - s * ay, t * ay * az + s * ax, c + t * az * az, 0;
     0, 0, 0, 1]

/-- Embeds the `modelView` computation of
`SceneManager::SetTransformations`: each axis rotation is
`glm::rotate` of the degree angle converted by `glm::radians` about the
corresponding unit axis, and the product is
`translation * rotationZ * rotationY * rotationX * scale`. -/
noncomputable def modelView (scaleXYZ : V3)
    (XrotationDegrees YrotationDegrees ZrotationDegrees : ℝ)
    (positionXYZ : V3) : Mat4 :=
  glmTranslate positionXYZ *
    glmRotate (radians ZrotationDegrees) 0 0 1 *
    glmRotate (radians YrotationDegrees) 0 1 0 *
    glmRotate (radians XrotationDegrees) 1 0 0 *
    glmScale scaleXYZ

/-- Uniform-push events carrying a 4x4 matrix (`setMat4Value`). -/
inductive MatrixEvent where
  | setMat4 (name : String) (value : Mat4)

/-- Embeds `SceneManager::SetTransformations`: builds `modelView` and,
when the shader sink is non-NULL, pushes it under the uniform name
`model`; a NULL sink receives nothing. -/
noncomputable def SetTransformations (shaderPresent : Bool) (scaleXYZ : V3)
    (XrotationDegrees YrotationDegrees ZrotationDegrees : ℝ)
    (positionXYZ : V3) : List MatrixEvent :=
  if shaderPresent then
    [.setMat4 "model"
      (modelView scaleXYZ XrotationDegrees YrotationDegrees ZrotationDegrees positionXYZ)]
  else
    []

/-- Written from the spec's words, for comparison with the embedded
pipeline: the textbook 4x4 translation matrix `Translate(p)`. -/
noncomputable def specTranslate (p : V3) : Mat4 :=
  !![1, 0, 0, p.1;
     0, 1, 0, p.2.1;
     0, 0, 1, p.2.2;
     0, 0, 0, 1]

/-- Written from the spec's words: the textbook scaling matrix
`Scale(s)`. -/
noncomputable def specScale (s : V3) : Mat4 :=
  !![s.1, 0, 0, 0;
     0, s.2.1, 0, 0;
     0, 0, s.2.2, 0;
     0, 0, 0, 1]

/-- Written from the spec's words: the textbook rotation about the X
axis by `a` radians, `RotateX(a)`. -/
noncomputable def specRotateX (a : ℝ) : Mat4 :=
  !![1, 0, 0, 0;
     0, Real.cos a, -Real.sin a, 0;
     0, Real.sin a, Real.cos a, 0;
     0, 0, 0, 1]

/-- Written from the spec's words: the textbook rotation about the Y
axis by `a` radians, `RotateY(a)`. -/
noncomputable def specRotateY (a : ℝ) : Mat4 :=
  !![Real.cos a, 0, Real.sin a, 0;
     0, 1, 0, 0;
     -Real.sin a, 0, Real.cos a, 0;
     0, 0, 0, 1]

/-- Written from the spec's words: the textbook rotation about the Z
axis by `a` radians, `RotateZ(a)`. -/
noncomputable def specRotateZ (a : ℝ) : Mat4 :=
  !![Real.cos a, -Real.sin a, 0, 0;
     Real.sin a, Real.cos a, 0, 0;
     0, 0, 1, 0;
     0, 0, 0, 1]

/-! ## Helper lemmas -/

theorem FindTextureID_not_found (reg : List TextureEntry) (tag : String)
    (h : ∀ e ∈ reg, e.tag ≠ tag) : FindTextureID reg tag = -1 := by
  induction reg with
  | nil => rfl
  | cons e rest ih =>
    simp only [FindTextureID, if_neg (h e (List.mem_cons_self e rest))]
    exact ih fun x hx => h x (List.mem_cons_of_mem _ hx)

theorem FindTextureSlotLoop_not_found (reg : List TextureEntry) (tag : String)
    (h : ∀ e ∈ reg, e.tag ≠ tag) : ∀ i : Int, FindTextureSlotLoop reg tag i = -1 := by
  induction reg with
  | nil => intro i; rfl
  | cons e rest ih =>
    intro i
    simp only [FindTextureSlotLoop, if_neg (h e (List.mem_cons_self e rest))]
    exact ih (fun x hx => h x (List.mem_cons_of_mem _ hx)) (i + 1)

theorem FindTextureSlotLoop_first_match (pre : List TextureEntry) (e : TextureEntry)
    (post : List TextureEntry) (tag : String) (he : e.tag = tag)
    (hpre : ∀ x ∈ pre, x.tag ≠ tag) :
    ∀ i : Int, FindTextureSlotLoop (pre ++ e :: post) tag i = i + pre.length := by
  induction pre with
  | nil => intro i; simp [FindTextureSlotLoop, he]
  | cons x rest ih =>
    intro i
    simp only [List.cons_append, FindTextureSlotLoop, List.append_eq,
      if_neg (hpre x (List.mem_cons_self x rest))]
    rw [ih (fun y hy => hpre y (List.mem_cons_of_mem _ hy)) (i + 1)]
    push_cast [List.length_cons]
    ring

theorem FindTextureID_first_match (pre : List TextureEntry) (e : TextureEntry)
    (post : List TextureEntry) (tag : String) (he : e.tag = tag)
    (hpre : ∀ x ∈ pre, x.tag ≠ tag) :
    FindTextureID (pre ++ e :: post) tag = e.ID := by
  induction pre with
  | nil => simp [FindTextureID, he]
  | cons x rest ih =>
    simp only [List.cons_append, FindTextureID, List.append_eq,
      if_neg (hpre x (List.mem_cons_self x rest))]
    exact ih fun y hy => hpre y (List.mem_cons_of_mem _ hy)

theorem DestroyGLTexturesLoop_spec (names : ℕ → Int) (reg : List TextureEntry) :
    ∀ i : ℕ,
      (DestroyGLTexturesLoop names i reg).1.map TextureEntry.tag =
          reg.map TextureEntry.tag ∧
      (DestroyGLTexturesLoop names i reg).1.map TextureEntry.ID =
          (List.range' i reg.length).map names ∧
      (DestroyGLTexturesLoop names i reg).2 =
          (List.range' i reg.length).map fun j => GLCall.genTextures (names j) := by
  induction reg with
  | nil => intro i; simp [DestroyGLTexturesLoop]
  | cons e rest ih =>
    intro i
    obtain ⟨h1, h2, h3⟩ := ih (i + 1)
    simp [DestroyGLTexturesLoop, h1, h2, h3, List.range'_succ]

theorem glmRotate_unitX (a : ℝ) : glmRotate a 1 0 0 = specRotateX a := by
  have hlen : Real.sqrt ((1 : ℝ) * 1 + 0 * 0 + 0 * 0) = 1 := by norm_num
  ext i j
  fin_cases i <;> fin_cases j <;> simp [glmRotate, specRotateX, hlen]

theorem glmRotate_unitY (a : ℝ) : glmRotate a 0 1 0 = specRotateY a := by
  have hlen : Real.sqrt ((0 : ℝ) * 0 + 1 * 1 + 0 * 0) = 1 := by norm_num
  ext i j
  fin_cases i <;> fin_cases j <;> simp [glmRotate, specRotateY, hlen]

theorem glmRotate_unitZ (a : ℝ) : glmRotate a 0 0 1 = specRotateZ a := by
  have hlen : Real.sqrt ((0 : ℝ) * 0 + 0 * 0 + 1 * 1) = 1 := by norm_num
  ext i j
  fin_cases i <;> fin_cases j <;> simp [glmRotate, specRotateZ, hlen]

theorem radians_zero : radians 0 = 0 := by
  simp [radians]

theorem specRotateX_zero : specRotateX 0 = 1 := by
  ext i j
  fin_cases i <;> fin_cases j <;> simp [specRotateX, Matrix.one_apply] <;>
    simp [Matrix.vecHead, Matrix.vecTail]

theorem specRotateY_zero : specRotateY 0 = 1 := by
  ext i j
  fin_cases i <;> fin_cases j <;> simp [specRotateY, Matrix.one_apply] <;>
    simp [Matrix.vecHead, Matrix.vecTail]

theorem specRotateZ_zero : specRotateZ 0 = 1 := by
  ext i j
  fin_cases i <;> fin_cases j <;> simp [specRotateZ, Matrix.one_apply] <;>
    simp [Matrix.vecHead, Matrix.vecTail]

theorem specScale_one : specScale (1, 1, 1) = 1 := by
  ext i j
  fin_cases i <;> fin_cases j <;> simp [specScale, Matrix.one_apply] <;>
    simp [Matrix.vecHead, Matrix.vecTail]

theorem specTranslate_zero : specTranslate (0, 0, 0) = 1 := by
  ext i j
  fin_cases i <;> fin_cases j <;> simp [specTranslate, Matrix.one_apply] <;>
    simp [Matrix.vecHead, Matrix.vecTail]

/-! ## Claim theorems -/

/-- C1 (code bug, evaluated at the failing input): with a nonempty
material registry holding only the "desk" material, looking up an
unregistered tag makes `FindMaterial` report `true` to its caller (the
scan's `bFound` flag is discarded by the final `return(true)`), and
`SetShaderMaterial` therefore pushes the three material uniforms from
the never-written local material (here the modelled indeterminate stack
contents), instead of reporting not-found and pushing nothing as the
claim states. -/
theorem findMaterial_miss_reported_found :
    (FindMaterial [⟨(4/5, 1/2, 1/5), (1/2, 1/2, 1/2), 32, "desk"⟩] "missing"
        ⟨(711/100, 0, 3), (2, 5, 7), 99, ""⟩).1 = true ∧
    SetShaderMaterial [⟨(4/5, 1/2, 1/5), (1/2, 1/2, 1/2), 32, "desk"⟩] "missing"
        ⟨(711/100, 0, 3), (2, 5, 7), 99, ""⟩ =
      [.setVec3 "material.diffuseColor" (711/100, 0, 3),
       .setVec3 "material.specularColor" (2, 5, 7),
       .setFloat "material.shininess" 99] := by
  exact ⟨rfl, rfl⟩

/-- C2: with 16 textures already registered, a 17th registration attempt
on a decodable 3- or 4-channel image fails with `SlotCapacityExceeded`
and leaves the registry (entries, and hence the live count) unchanged. -/
theorem register_at_capacity_fails (reg : List TextureEntry) (w h c : ℕ)
    (newID : Int) (tag : String) (hfull : reg.length = 16)
    (hc : c = 3 ∨ c = 4) :
    CreateGLTexture reg (.ok w h c) newID tag =
      (reg, some .slotCapacityExceeded) := by
  rcases hc with rfl | rfl <;> simp [CreateGLTexture, MAX_SLOTS, hfull]

/-- Witness for C2 at a concrete 16-entry registry. -/
theorem register_at_capacity_fails_check :
    CreateGLTexture (List.replicate 16 (⟨0, "x"⟩ : TextureEntry)) (.ok 1 1 3) 99 "t" =
      (List.replicate 16 (⟨0, "x"⟩ : TextureEntry), some .slotCapacityExceeded) :=
  register_at_capacity_fails _ 1 1 3 99 "t" (by rfl) (Or.inl rfl)

/-- C3: the composed model matrix is
`Translate(p) * RotateZ(z) * RotateY(y) * RotateX(x) * Scale(s)` with
each angle converted from degrees to radians, and at scale (1,1,1),
rotation (0,0,0), position (0,0,0) it is the 4x4 identity. -/
theorem compose_order_and_identity :
    (∀ (s : V3) (x y z : ℝ) (p : V3),
        modelView s x y z p =
          specTranslate p * specRotateZ (radians z) * specRotateY (radians y) *
            specRotateX (radians x) * specScale s) ∧
    modelView (1, 1, 1) 0 0 0 (0, 0, 0) = (1 : Mat4) := by
  have main : ∀ (s : V3) (x y z : ℝ) (p : V3),
      modelView s x y z p =
        specTranslate p * specRotateZ (radians z) * specRotateY (radians y) *
          specRotateX (radians x) * specScale s := by
    intro s x y z p
    unfold modelView
    rw [glmRotate_unitX, glmRotate_unitY, glmRotate_unitZ]
    rfl
  refine ⟨main, ?_⟩
  rw [main, radians_zero, specRotateX_zero, specRotateY_zero, specRotateZ_zero,
    specScale_one, specTranslate_zero]
  simp

/-- C4: the render phase derives the clock-hand angles as
hourAngle = -((hour mod 12) + minute/60) * 30, minuteAngle = -minute * 6,
secondAngle = -second * 6 (degrees); at 3:00:00 they are (-90, 0, 0) and
at 6:30:00 they are (-195, -180, 0). -/
theorem clock_hand_angles :
    (∀ hour minute second : ℕ,
        RenderSceneClockAngles hour minute second =
          (-(((hour % 12 : ℕ) : ℚ) + (minute : ℚ) / 60) * 30,
           -(minute : ℚ) * 6,
           -(second : ℚ) * 6)) ∧
    RenderSceneClockAngles 3 0 0 = (-90, 0, 0) ∧
    RenderSceneClockAngles 6 30 0 = (-195, -180, 0) := by
  refine ⟨fun _ _ _ => rfl, ?_, ?_⟩ <;> norm_num [RenderSceneClockAngles]

/-- C5: a successful registration appends its entry after the existing
ones, so the Nth successful registration occupies slot N-1; for a
registered tag, `FindTextureSlot` returns the index of the first entry
carrying it (the slot assigned at registration) and `FindTextureID` the
handle stored there; a tag never registered yields the sentinel -1 from
both lookups. -/
theorem texture_lookup_correct :
    (∀ (reg : List TextureEntry) (decoded : DecodeResult) (newID : Int) (tag : String),
        (CreateGLTexture reg decoded newID tag).2 = none →
        (CreateGLTexture reg decoded newID tag).1 = reg ++ [⟨newID, tag⟩]) ∧
    (∀ (pre : List TextureEntry) (e : TextureEntry) (post : List TextureEntry)
        (tag : String), e.tag = tag → (∀ x ∈ pre, x.tag ≠ tag) →
        FindTextureSlot (pre ++ e :: post) tag = pre.length ∧
        FindTextureID (pre ++ e :: post) tag = e.ID) ∧
    (∀ (reg : List TextureEntry) (tag : String), (∀ e ∈ reg, e.tag ≠ tag) →
        FindTextureSlot reg tag = -1 ∧ FindTextureID reg tag = -1) := by
  refine ⟨?_, ?_, ?_⟩
  · intro reg decoded newID tag hok
    cases decoded with
    | fail => simp [CreateGLTexture] at hok
    | ok w h c =>
      by_cases h34 : c = 3 ∨ c = 4
      · by_cases hlen : reg.length < MAX_SLOTS
        · simp [CreateGLTexture, h34, hlen]
        · simp [CreateGLTexture, h34, hlen] at hok
      · simp [CreateGLTexture, h34] at hok
  · intro pre e post tag he hpre
    constructor
    · rw [FindTextureSlot, FindTextureSlotLoop_first_match pre e post tag he hpre 0]
      ring
    · exact FindTextureID_first_match pre e post tag he hpre
  · intro reg tag h
    exact ⟨FindTextureSlotLoop_not_found reg tag h 0, FindTextureID_not_found reg tag h⟩

/-- Witness for C5 at a concrete two-entry registry built by two
successful registrations. -/
theorem texture_lookup_correct_check :
    (CreateGLTexture [⟨7, "a"⟩] (.ok 2 2 4) 8 "b").1 = [⟨7, "a"⟩, ⟨8, "b"⟩] ∧
    FindTextureSlot [⟨7, "a"⟩, ⟨8, "b"⟩] "b" = 1 ∧
    FindTextureID [⟨7, "a"⟩, ⟨8, "b"⟩] "b" = 8 ∧
    FindTextureSlot [⟨7, "a"⟩, ⟨8, "b"⟩] "z" = -1 ∧
    FindTextureID [⟨7, "a"⟩, ⟨8, "b"⟩] "z" = -1 := by
  refine ⟨texture_lookup_correct.1 [⟨7, "a"⟩] (.ok 2 2 4) 8 "b" rfl, ?_, ?_, ?_, ?_⟩
  · exact (texture_lookup_correct.2.1 [⟨7, "a"⟩] ⟨8, "b"⟩ [] "b" rfl (by decide)).1
  · exact (texture_lookup_correct.2.1 [⟨7, "a"⟩] ⟨8, "b"⟩ [] "b" rfl (by decide)).2
  · exact (texture_lookup_correct.2.2 [⟨7, "a"⟩, ⟨8, "b"⟩] "z" (by decide)).1
  · exact (texture_lookup_correct.2.2 [⟨7, "a"⟩, ⟨8, "b"⟩] "z" (by decide)).2

/-- C6: an image that decodes with a channel count other than 3 or 4 is
rejected with `UnsupportedChannelLayout`; the registry — entries and
live count — is unchanged. -/
theorem unsupported_channels_rejected (reg : List TextureEntry) (w h c : ℕ)
    (newID : Int) (tag : String) (h3 : c ≠ 3) (h4 : c ≠ 4) :
    CreateGLTexture reg (.ok w h c) newID tag =
      (reg, some .unsupportedChannelLayout) := by
  simp [CreateGLTexture, h3, h4]

/-- Witness for C6 at a 1-channel image. -/
theorem unsupported_channels_rejected_check :
    CreateGLTexture [] (.ok 8 8 1) 5 "gray" = ([], some .unsupportedChannelLayout) :=
  unsupported_channels_rejected [] 8 8 1 5 "gray" (by decide) (by decide)

/-- C7: for a tag not present in the texture registry, `SetShaderTexture`
still pushes `bUseTexture := true` and pushes the not-found sentinel -1
as the sampler-index uniform; it neither falls back to flat-color mode
nor skips the push. -/
theorem texture_miss_pushes_sentinel (reg : List TextureEntry) (tag : String)
    (hmiss : ∀ e ∈ reg, e.tag ≠ tag) :
    SetShaderTexture true reg tag =
      [.setInt "bUseTexture" 1, .setSampler2D "objectTexture" (-1)] := by
  simp [SetShaderTexture, FindTextureSlot, FindTextureSlotLoop_not_found reg tag hmiss 0]

/-- Witness for C7 at a concrete registry and absent tag. -/
theorem texture_miss_pushes_sentinel_check :
    SetShaderTexture true [⟨7, "a"⟩] "z" =
      [.setInt "bUseTexture" 1, .setSampler2D "objectTexture" (-1)] :=
  texture_miss_pushes_sentinel [⟨7, "a"⟩] "z" (by decide)

/-- C8: `SetShaderColor` always pushes `bUseTexture := false` together
with the RGBA color, `SetShaderTexture` always pushes
`bUseTexture := true` together with the resolved slot, and after any
sequence of such calls the last write to `bUseTexture` is 1 exactly when
the most recent call was a texture call (last call before a draw
wins). -/
theorem color_texture_last_call_wins :
    (∀ r g b a : ℚ, SetShaderColor true r g b a =
        [.setInt "bUseTexture" 0, .setVec4 "objectColor" (r, g, b, a)]) ∧
    (∀ (reg : List TextureEntry) (tag : String), SetShaderTexture true reg tag =
        [.setInt "bUseTexture" 1,
         .setSampler2D "objectTexture" (FindTextureSlot reg tag)]) ∧
    (∀ (reg : List TextureEntry) (calls : List GatewayCall) (c : GatewayCall),
        lastUseTexture (runCalls reg (calls ++ [c])) =
          some (if c.isTexture then 1 else 0)) := by
  refine ⟨fun _ _ _ _ => rfl, fun _ _ => rfl, ?_⟩
  intro reg calls c
  have hsplit : runCalls reg (calls ++ [c]) =
      runCalls reg calls ++ c.events reg := by
    simp [runCalls]
  rw [hsplit]
  unfold lastUseTexture
  rw [List.foldl_append]
  cases c <;>
    simp [GatewayCall.events, GatewayCall.isTexture, SetShaderColor, SetShaderTexture]

/-- C9: with a NULL shader sink, `SetTransformations`, `SetShaderColor`,
`SetShaderTexture` and `SetTextureUVScale` push no uniforms at all. -/
theorem null_shader_no_push :
    (∀ (s : V3) (x y z : ℝ) (p : V3), SetTransformations false s x y z p = []) ∧
    (∀ r g b a : ℚ, SetShaderColor false r g b a = []) ∧
    (∀ (reg : List TextureEntry) (tag : String), SetShaderTexture false reg tag = []) ∧
    (∀ u v : ℚ, SetTextureUVScale false u v = []) :=
  ⟨fun _ _ _ _ _ => rfl, fun _ _ _ _ => rfl, fun _ _ => rfl, fun _ _ => rfl⟩

/-- C10: teardown walks the N live entries in order, issuing for each one
a generate-new-texture-name call whose fresh name overwrites the stored
handle; it issues no delete call, and the live count and all tags are
unchanged. -/
theorem destroy_regenerates_names (names : ℕ → Int) (reg : List TextureEntry) :
    (DestroyGLTextures names reg).1.length = reg.length ∧
    (DestroyGLTextures names reg).1.map TextureEntry.tag =
        reg.map TextureEntry.tag ∧
    (DestroyGLTextures names reg).1.map TextureEntry.ID =
        (List.range reg.length).map names ∧
    (DestroyGLTextures names reg).2 =
        (List.range reg.length).map (fun j => GLCall.genTextures (names j)) ∧
    (∀ n : Int, GLCall.deleteTextures n ∉ (DestroyGLTextures names reg).2) := by
  obtain ⟨h1, h2, h3⟩ := DestroyGLTexturesLoop_spec names reg 0
  have hrange : List.range' 0 reg.length = List.range reg.length :=
    (List.range_eq_range' reg.length).symm
  refine ⟨?_, ?_, ?_, ?_, ?_⟩
  · have := congrArg List.length h1
    simpa using this
  · exact h1
  · rw [DestroyGLTextures, h2, hrange]
  · rw [DestroyGLTextures, h3, hrange]
  · intro n
    rw [DestroyGLTextures, h3]
    simp

end SceneManager
